import Mathlib

/-!
Shallow embedding of the beszel-cli REST client layer (src/app/client.py)
and proofs of its specified properties.

Each Python method of BeszelClient is modelled as a pure function: methods
that issue one HTTP request are split into the request they send (a
`Request` value) and the handler mapping the HTTP response to the returned
value (`Response → Except ClientError _`), packaged together in an `Op`.
JSON values are a standard inductive; Python dict.get with a default is
`Json.getD`; httpx raise_for_status is `handleResponse`, which turns a
non-2xx status into a typed error value.
-/

namespace BeszelCli

/-- JSON values, as parsed response bodies and request bodies. Objects keep
their fields as an ordered association list, matching Python dict insertion
order. -/
inductive Json where
  | null : Json
  | bool : Bool → Json
  | num : Int → Json
  | str : String → Json
  | arr : List Json → Json
  | obj : List (String × Json) → Json

/-- Python dict key lookup on a JSON object: some value when the key is
present, none when absent or when the value is not an object. -/
def Json.get? (j : Json) (k : String) : Option Json :=
  match j with
  | Json.obj fields => fields.lookup k
  | _ => none

/-- Python dict.get with a default: the value at the key when present,
otherwise the default. -/
def Json.getD (j : Json) (k : String) (d : Json) : Json :=
  (j.get? k).getD d

/-- HTTP methods used by the client. -/
inductive Method where
  | GET : Method
  | POST : Method
  | PATCH : Method
  | DELETE : Method
deriving DecidableEq, Repr

/-- An outgoing HTTP request as httpx sees it: method, full URL, header
list, query parameters and optional JSON body. -/
structure Request where
  method : Method
  url : String
  headers : List (String × String)
  params : List (String × Json)
  body : Option Json

/-- An HTTP response: numeric status and parsed JSON body. -/
structure Response where
  status : Nat
  body : Json

/-- True for a key present among the query parameters of a request. -/
def Request.hasParam (r : Request) (k : String) : Bool :=
  (r.params.lookup k).isSome

/-- Errors a client operation can raise: an HTTPStatusError from
raise_for_status carrying the status and body, a KeyError for a missing
dict key, or a value outside the declared type annotations of the source. -/
inductive ClientError where
  | httpStatus : Nat → Json → ClientError
  | keyError : String → ClientError
  | typeError : ClientError

/-- httpx success range: raise_for_status is silent exactly on 2xx. -/
def isSuccess (status : Nat) : Bool :=
  200 ≤ status && status < 300

/-- Models response.raise_for_status() followed by response.json(): the
parsed body on a 2xx status, a typed HTTP error carrying status and body
otherwise. -/
def handleResponse (r : Response) : Except ClientError Json :=
  if isSuccess r.status then Except.ok r.body
  else Except.error (ClientError.httpStatus r.status r.body)

/-- The client session state: base URL (trailing slashes stripped at
construction) and the optional auth token, per the source annotations
base_url: str and token: str or None. -/
structure BeszelClient where
  base_url : String
  token : Option String

/-- BeszelClient.__init__: strips trailing slashes from the base URL and
stores the optional token. -/
def BeszelClient.init (base_url : String) (token : Option String) : BeszelClient :=
  { base_url := base_url.dropRightWhile (fun ch => ch = '/'), token := token }

/-- BeszelClient._headers: always Content-Type application/json; adds an
Authorization header holding the raw token exactly when the token is truthy
in Python, that is, not None and not the empty string. -/
def BeszelClient.headers (c : BeszelClient) : List (String × String) :=
  [("Content-Type", "application/json")] ++
    (match c.token with
     | some t => if t = "" then [] else [("Authorization", t)]
     | none => [])

/-- Python truthiness of the optional token string: false for None and for
the empty string. -/
def tokenPresent : Option String → Bool
  | none => false
  | some t => !(t = "")

/-- A client operation that issues exactly one HTTP request: the request it
sends and the handler producing its return value from the response. -/
structure Op (α : Type) where
  request : Request
  handle : Response → Except ClientError α

/-- BeszelClient._get: GET base_url ++ path with the client headers and the
given query parameters; raise_for_status then parsed JSON. -/
def BeszelClient.httpGet (c : BeszelClient) (path : String) (params : List (String × Json)) : Op Json :=
  { request := { method := Method.GET, url := c.base_url ++ path,
                 headers := c.headers, params := params, body := none },
    handle := handleResponse }

/-- BeszelClient._post: POST base_url ++ path with JSON body data or the
empty object when data is None; raise_for_status then parsed JSON. -/
def BeszelClient.httpPost (c : BeszelClient) (path : String) (data : Option Json) : Op Json :=
  { request := { method := Method.POST, url := c.base_url ++ path,
                 headers := c.headers, params := [],
                 body := some (data.getD (Json.obj [])) },
    handle := handleResponse }

/-- BeszelClient._patch: PATCH base_url ++ path with JSON body data;
raise_for_status then parsed JSON. -/
def BeszelClient.httpPatch (c : BeszelClient) (path : String) (data : Json) : Op Json :=
  { request := { method := Method.PATCH, url := c.base_url ++ path,
                 headers := c.headers, params := [], body := some data },
    handle := handleResponse }

/-- BeszelClient._delete: DELETE base_url ++ path; raise_for_status and no
return value. -/
def BeszelClient.httpDelete (c : BeszelClient) (path : String) : Op Unit :=
  { request := { method := Method.DELETE, url := c.base_url ++ path,
                 headers := c.headers, params := [], body := none },
    handle := fun r =>
      if isSuccess r.status then Except.ok ()
      else Except.error (ClientError.httpStatus r.status r.body) }

/-- The request BeszelClient.login sends: a direct _client.post, bypassing
_headers, with only the Content-Type header and the credentials as the JSON
body under the keys identity and password. -/
def BeszelClient.loginRequest (c : BeszelClient) (email password : String) : Request :=
  { method := Method.POST,
    url := c.base_url ++ "/api/collections/users/auth-with-password",
    headers := [("Content-Type", "application/json")],
    params := [],
    body := some (Json.obj [("identity", Json.str email), ("password", Json.str password)]) }

/-- BeszelClient.login response handling: raise_for_status, then read the
token field of the body, store it on the client and return it. A missing
token key is a Python KeyError; a non-string token value would violate the
declared return type of login (str) and is modelled as a type error. The
client is returned unchanged on every error path. -/
def BeszelClient.login (c : BeszelClient) (r : Response) :
    BeszelClient × Except ClientError String :=
  if isSuccess r.status then
    match r.body.get? "token" with
    | some (Json.str t) => ({ c with token := some t }, Except.ok t)
    | some _ => (c, Except.error ClientError.typeError)
    | none => (c, Except.error (ClientError.keyError "token"))
  else (c, Except.error (ClientError.httpStatus r.status r.body))

/-- BeszelClient.auth_refresh: _post to the auth-refresh endpoint with no
body. -/
def BeszelClient.auth_refresh (c : BeszelClient) : Op Json :=
  c.httpPost "/api/collections/users/auth-refresh" none

/-- BeszelClient.get_current_user: auth_refresh, then result.get of the
record key with an empty dict default. -/
def BeszelClient.get_current_user (c : BeszelClient) : Op Json :=
  let inner := c.auth_refresh
  { request := inner.request,
    handle := fun r => (inner.handle r).map (fun result => result.getD "record" (Json.obj [])) }

/-- The query parameters BeszelClient.list_records builds: page and perPage
always, then sort, filter and expand each added only when non-empty, in
insertion order. -/
def listParams (page per_page : Int) (sort filter_expr expand : String) :
    List (String × Json) :=
  [("page", Json.num page), ("perPage", Json.num per_page)]
    ++ (if sort = "" then [] else [("sort", Json.str sort)])
    ++ (if filter_expr = "" then [] else [("filter", Json.str filter_expr)])
    ++ (if expand = "" then [] else [("expand", Json.str expand)])

/-- BeszelClient.list_records: _get on /api/collections/ ++ collection ++
/records with the parameters of listParams; returns the parsed body. -/
def BeszelClient.list_records (c : BeszelClient) (collection : String)
    (page per_page : Int) (sort filter_expr expand : String) : Op Json :=
  c.httpGet ("/api/collections/" ++ collection ++ "/records")
    (listParams page per_page sort filter_expr expand)

/-- BeszelClient.get_record: _get on the record URL, with an expand
parameter only when non-empty. -/
def BeszelClient.get_record (c : BeszelClient) (collection record_id expand : String) : Op Json :=
  c.httpGet ("/api/collections/" ++ collection ++ "/records/" ++ record_id)
    (if expand = "" then [] else [("expand", Json.str expand)])

/-- BeszelClient.create_record: _post with the data as body. -/
def BeszelClient.create_record (c : BeszelClient) (collection : String) (data : Json) : Op Json :=
  c.httpPost ("/api/collections/" ++ collection ++ "/records") (some data)

/-- BeszelClient.update_record: _patch with the data as body. -/
def BeszelClient.update_record (c : BeszelClient) (collection record_id : String) (data : Json) : Op Json :=
  c.httpPatch ("/api/collections/" ++ collection ++ "/records/" ++ record_id) data

/-- BeszelClient.delete_record: _delete on the record URL. -/
def BeszelClient.delete_record (c : BeszelClient) (collection record_id : String) : Op Unit :=
  c.httpDelete ("/api/collections/" ++ collection ++ "/records/" ++ record_id)

/-- Post-processing shared by the items accessors: result.get of the items
key with an empty list default, applied to the parsed list_records body. -/
def itemsOf (inner : Op Json) : Op Json :=
  { request := inner.request,
    handle := fun r => (inner.handle r).map (fun result => result.getD "items" (Json.arr [])) }

/-- BeszelClient.get_systems: list_records on systems with per_page 200 and
the passthrough filter, then the items of the result. -/
def BeszelClient.get_systems (c : BeszelClient) (filter_expr : String) : Op Json :=
  itemsOf (c.list_records "systems" 1 200 "" filter_expr "")

/-- BeszelClient.get_system: get_record on systems. -/
def BeszelClient.get_system (c : BeszelClient) (system_id : String) : Op Json :=
  c.get_record "systems" system_id ""

/-- BeszelClient.update_system: update_record on systems. -/
def BeszelClient.update_system (c : BeszelClient) (system_id : String) (data : Json) : Op Json :=
  c.update_record "systems" system_id data

/-- BeszelClient.delete_system: delete_record on systems. -/
def BeszelClient.delete_system (c : BeszelClient) (system_id : String) : Op Unit :=
  c.delete_record "systems" system_id

/-- BeszelClient.get_system_stats: list_records on system_stats, sort
-created, filter built by f-string interpolation of the system id and
record type, then the items of the result. -/
def BeszelClient.get_system_stats (c : BeszelClient) (system_id record_type : String)
    (per_page : Int) : Op Json :=
  itemsOf (c.list_records "system_stats" 1 per_page "-created"
    ("system=\"" ++ system_id ++ "\" && type=\"" ++ record_type ++ "\"") "")

/-- BeszelClient.get_container_stats: list_records on container_stats, sort
-created, filter built by f-string interpolation of the system id, then the
items of the result. -/
def BeszelClient.get_container_stats (c : BeszelClient) (system_id : String)
    (per_page : Int) : Op Json :=
  itemsOf (c.list_records "container_stats" 1 per_page "-created"
    ("system=\"" ++ system_id ++ "\"") "")

/-- BeszelClient.get_alerts: filter by interpolated system id when the id
is truthy, else the empty filter; list_records on alerts with per_page 200
and expand system, then the items of the result. -/
def BeszelClient.get_alerts (c : BeszelClient) (system_id : String) : Op Json :=
  itemsOf (c.list_records "alerts" 1 200 ""
    (if system_id = "" then "" else "system=\"" ++ system_id ++ "\"") "system")

/-- BeszelClient.get_alert: get_record on alerts with expand system. -/
def BeszelClient.get_alert (c : BeszelClient) (alert_id : String) : Op Json :=
  c.get_record "alerts" alert_id "system"

/-- BeszelClient.create_alert: create_record on alerts. -/
def BeszelClient.create_alert (c : BeszelClient) (data : Json) : Op Json :=
  c.create_record "alerts" data

/-- BeszelClient.update_alert: update_record on alerts. -/
def BeszelClient.update_alert (c : BeszelClient) (alert_id : String) (data : Json) : Op Json :=
  c.update_record "alerts" alert_id data

/-- BeszelClient.delete_alert: delete_record on alerts. -/
def BeszelClient.delete_alert (c : BeszelClient) (alert_id : String) : Op Unit :=
  c.delete_record "alerts" alert_id

/-- BeszelClient.get_alert_history: list_records on alerts_history with
sort -created, then the items of the result. -/
def BeszelClient.get_alert_history (c : BeszelClient) (per_page : Int) : Op Json :=
  itemsOf (c.list_records "alerts_history" 1 per_page "-created" "" "")

/-- BeszelClient.get_containers: filter by interpolated system id when the
id is truthy, else the empty filter; list_records on containers with
per_page 200, then the items of the result. -/
def BeszelClient.get_containers (c : BeszelClient) (system_id : String) : Op Json :=
  itemsOf (c.list_records "containers" 1 200 ""
    (if system_id = "" then "" else "system=\"" ++ system_id ++ "\"") "")

/-- A sample client with a token set, used by the concrete witnesses. -/
def sampleClient : BeszelClient :=
  { base_url := "https://hub.example.com", token := some "tok123" }

/-- A sample client with no token, used by the concrete witnesses. -/
def noTokenClient : BeszelClient :=
  { base_url := "https://hub.example.com", token := none }

/-- A sample client whose token is the empty string, used by the concrete
witnesses. -/
def emptyTokenClient : BeszelClient :=
  { base_url := "https://hub.example.com", token := some "" }

end BeszelCli

namespace BeszelCli

/-- Helper: the interpolated system-and-type filter string is never empty,
whatever the interpolated values. -/
theorem statsFilter_ne_empty (s t : String) :
    ("system=\"" ++ s ++ "\" && type=\"" ++ t ++ "\"") ≠ "" := by
  intro h
  have hl := congrArg String.length h
  simp [String.length_append] at hl
  exact absurd hl.2 (by decide)

/-- Helper: the interpolated system-id filter string is never empty,
whatever the interpolated value. -/
theorem idFilter_ne_empty (s : String) : ("system=\"" ++ s ++ "\"") ≠ "" := by
  intro h
  have hl := congrArg String.length h
  simp [String.length_append] at hl
  exact absurd hl.2 (by decide)

/-- C1: login sends a POST to /api/collections/users/auth-with-password
whose JSON body holds the credentials under identity and password, whose
header list is exactly Content-Type application/json with no Authorization
entry whatever token the client currently holds, and on a success response
whose token field is the string t it stores t as the session token and
returns t. -/
theorem c1_login_request_and_success (c : BeszelClient) (email password : String) :
    (c.loginRequest email password).method = Method.POST
    ∧ (c.loginRequest email password).url
        = c.base_url ++ "/api/collections/users/auth-with-password"
    ∧ (c.loginRequest email password).body
        = some (Json.obj [("identity", Json.str email), ("password", Json.str password)])
    ∧ (c.loginRequest email password).headers.lookup "Authorization" = none
    ∧ (c.loginRequest email password).headers = [("Content-Type", "application/json")]
    ∧ (∀ (r : Response) (t : String), isSuccess r.status = true →
        r.body.get? "token" = some (Json.str t) →
        c.login r = ({ c with token := some t }, Except.ok t)) := by
  refine ⟨rfl, rfl, rfl, rfl, rfl, ?_⟩
  intro r t hs ht
  simp [BeszelClient.login, hs, ht]

/-- C1 witness: the theorem applied to the sample client, with the success
clause discharged at a concrete 200 response carrying a token. -/
theorem c1_login_request_and_success_witness :
    (sampleClient.loginRequest "user@example.com" "pw").headers.lookup "Authorization" = none
    ∧ sampleClient.login ⟨200, Json.obj [("token", Json.str "newtok")]⟩
        = ({ sampleClient with token := some "newtok" }, Except.ok "newtok") :=
  ⟨(c1_login_request_and_success sampleClient "user@example.com" "pw").2.2.2.1,
   (c1_login_request_and_success sampleClient "user@example.com" "pw").2.2.2.2.2
     ⟨200, Json.obj [("token", Json.str "newtok")]⟩ "newtok" (by decide) rfl⟩

/-- C2: the list_records request always carries page and perPage with the
given values, carries each of sort, filter and expand exactly when the
corresponding argument is non-empty and then with exactly that value, never
an empty-string value, and its URL is the records path of the collection
under the base URL. -/
theorem c2_list_records_params (c : BeszelClient) (collection : String)
    (page per_page : Int) (sort filter_expr expand : String) :
    ((c.list_records collection page per_page sort filter_expr expand).request.hasParam "sort" = true ↔ sort ≠ "")
    ∧ ((c.list_records collection page per_page sort filter_expr expand).request.hasParam "filter" = true ↔ filter_expr ≠ "")
    ∧ ((c.list_records collection page per_page sort filter_expr expand).request.hasParam "expand" = true ↔ expand ≠ "")
    ∧ (sort ≠ "" →
        (c.list_records collection page per_page sort filter_expr expand).request.params.lookup "sort" = some (Json.str sort))
    ∧ (filter_expr ≠ "" →
        (c.list_records collection page per_page sort filter_expr expand).request.params.lookup "filter" = some (Json.str filter_expr))
    ∧ (expand ≠ "" →
        (c.list_records collection page per_page sort filter_expr expand).request.params.lookup "expand" = some (Json.str expand))
    ∧ (c.list_records collection page per_page sort filter_expr expand).request.params.lookup "sort" ≠ some (Json.str "")
    ∧ (c.list_records collection page per_page sort filter_expr expand).request.params.lookup "filter" ≠ some (Json.str "")
    ∧ (c.list_records collection page per_page sort filter_expr expand).request.params.lookup "expand" ≠ some (Json.str "")
    ∧ (c.list_records collection page per_page sort filter_expr expand).request.params.lookup "page" = some (Json.num page)
    ∧ (c.list_records collection page per_page sort filter_expr expand).request.params.lookup "perPage" = some (Json.num per_page)
    ∧ (c.list_records collection page per_page sort filter_expr expand).request.url
        = c.base_url ++ ("/api/collections/" ++ collection ++ "/records") := by
  by_cases hs : sort = "" <;> by_cases hf : filter_expr = "" <;> by_cases he : expand = "" <;>
    simp [BeszelClient.list_records, BeszelClient.httpGet, listParams, Request.hasParam,
          List.lookup, hs, hf, he]

/-- C2 witness: the theorem applied at concrete arguments, exercising both
a present and an absent optional parameter. -/
theorem c2_list_records_params_witness :
    (sampleClient.list_records "systems" 1 200 "-created" "" "").request.hasParam "sort" = true
    ∧ (sampleClient.list_records "systems" 1 200 "-created" "" "").request.hasParam "filter" = false
    ∧ (sampleClient.list_records "systems" 1 200 "-created" "" "").request.params.lookup "sort"
        = some (Json.str "-created")
    ∧ (sampleClient.list_records "systems" 1 200 "-created" "" "").request.params.lookup "page"
        = some (Json.num 1) := by
  have h := c2_list_records_params sampleClient "systems" 1 200 "-created" "" ""
  have hfilter : ¬ ((sampleClient.list_records "systems" 1 200 "-created" "" "").request.hasParam "filter" = true) :=
    fun hb => (h.2.1.mp hb) rfl
  exact ⟨h.1.mpr (by decide), by simpa using hfilter, h.2.2.2.1 (by decide),
         h.2.2.2.2.2.2.2.2.2.1⟩

/-- C3 counterexample: on a 200 response whose body is the empty object,
list_records returns that body unchanged, and the returned result has no
items key at all, so the generic list does not itself supply an items
sequence. -/
theorem c3_list_records_missing_items_counterexample :
    (sampleClient.list_records "systems" 1 200 "" "" "").handle ⟨200, Json.obj []⟩
        = Except.ok (Json.obj [])
    ∧ (Json.obj []).get? "items" = none :=
  ⟨rfl, rfl⟩

/-- C3 amended: list_records returns the parsed response body verbatim, so
a response missing items yields a result missing items; the empty-sequence
default is applied instead by each items accessor built on list_records,
every one of which returns the empty sequence when items is absent from the
response object. -/
theorem c3_items_default_amended (c : BeszelClient) (collection : String)
    (page per_page pp : Int) (sort filter_expr expand sid rt : String)
    (status : Nat) (fields : List (String × Json))
    (hs : isSuccess status = true)
    (hitems : (Json.obj fields).get? "items" = none) :
    (c.list_records collection page per_page sort filter_expr expand).handle ⟨status, Json.obj fields⟩
        = Except.ok (Json.obj fields)
    ∧ (c.get_systems filter_expr).handle ⟨status, Json.obj fields⟩ = Except.ok (Json.arr [])
    ∧ (c.get_system_stats sid rt pp).handle ⟨status, Json.obj fields⟩ = Except.ok (Json.arr [])
    ∧ (c.get_container_stats sid pp).handle ⟨status, Json.obj fields⟩ = Except.ok (Json.arr [])
    ∧ (c.get_alerts sid).handle ⟨status, Json.obj fields⟩ = Except.ok (Json.arr [])
    ∧ (c.get_alert_history pp).handle ⟨status, Json.obj fields⟩ = Except.ok (Json.arr [])
    ∧ (c.get_containers sid).handle ⟨status, Json.obj fields⟩ = Except.ok (Json.arr []) := by
  simp [BeszelClient.list_records, BeszelClient.httpGet, handleResponse, hs,
        BeszelClient.get_systems, BeszelClient.get_system_stats,
        BeszelClient.get_container_stats, BeszelClient.get_alerts,
        BeszelClient.get_alert_history, BeszelClient.get_containers,
        itemsOf, Json.getD, Except.map, hitems]

/-- C3 amended witness: the amended theorem applied at a concrete 200
response whose object body lacks the items key. -/
theorem c3_items_default_amended_witness :
    (sampleClient.list_records "systems" 1 200 "" "" "").handle
        ⟨200, Json.obj [("totalItems", Json.num 0)]⟩
      = Except.ok (Json.obj [("totalItems", Json.num 0)])
    ∧ (sampleClient.get_systems "").handle ⟨200, Json.obj [("totalItems", Json.num 0)]⟩
      = Except.ok (Json.arr []) := by
  have h := c3_items_default_amended sampleClient "systems" 1 200 30 "" "" "" "s1" "1m"
    200 [("totalItems", Json.num 0)] (by decide) rfl
  exact ⟨h.1, h.2.1⟩

/-- C4: every request issued by an operation other than login carries the
Content-Type application/json header, carries the raw token string with no
scheme prefix as the Authorization header exactly when a token is present
in the Python truthy sense, and carries no Authorization header otherwise;
each such operation takes its header list from BeszelClient.headers. -/
theorem c4_headers_invariant (c : BeszelClient) (col rid ex sort fe sid rt aid : String)
    (pg pp : Int) (d : Json) :
    c.headers.lookup "Content-Type" = some "application/json"
    ∧ (∀ t : String, c.token = some t → t ≠ "" → c.headers.lookup "Authorization" = some t)
    ∧ (tokenPresent c.token = false → c.headers.lookup "Authorization" = none)
    ∧ (c.list_records col pg pp sort fe ex).request.headers = c.headers
    ∧ (c.get_record col rid ex).request.headers = c.headers
    ∧ (c.create_record col d).request.headers = c.headers
    ∧ (c.update_record col rid d).request.headers = c.headers
    ∧ (c.delete_record col rid).request.headers = c.headers
    ∧ c.auth_refresh.request.headers = c.headers
    ∧ c.get_current_user.request.headers = c.headers
    ∧ (c.get_systems fe).request.headers = c.headers
    ∧ (c.get_system sid).request.headers = c.headers
    ∧ (c.update_system sid d).request.headers = c.headers
    ∧ (c.delete_system sid).request.headers = c.headers
    ∧ (c.get_system_stats sid rt pp).request.headers = c.headers
    ∧ (c.get_container_stats sid pp).request.headers = c.headers
    ∧ (c.get_alerts sid).request.headers = c.headers
    ∧ (c.get_alert aid).request.headers = c.headers
    ∧ (c.create_alert d).request.headers = c.headers
    ∧ (c.update_alert aid d).request.headers = c.headers
    ∧ (c.delete_alert aid).request.headers = c.headers
    ∧ (c.get_alert_history pp).request.headers = c.headers
    ∧ (c.get_containers sid).request.headers = c.headers := by
  refine ⟨?_, ?_, ?_, rfl, rfl, rfl, rfl, rfl, rfl, rfl, rfl, rfl, rfl, rfl, rfl,
          rfl, rfl, rfl, rfl, rfl, rfl, rfl, rfl⟩
  · cases hc : c.token with
    | none => simp [BeszelClient.headers, hc, List.lookup]
    | some t => by_cases ht : t = "" <;> simp [BeszelClient.headers, hc, ht, List.lookup]
  · intro t ht hne
    simp [BeszelClient.headers, ht, hne, List.lookup]
  · intro hp
    cases hc : c.token with
    | none => simp [BeszelClient.headers, hc, List.lookup]
    | some t =>
        rw [hc] at hp
        simp [tokenPresent] at hp
        simp [BeszelClient.headers, hc, hp, List.lookup]

/-- C4 witness: the theorem applied to a client holding a token and to a
client holding none. -/
theorem c4_headers_invariant_witness :
    sampleClient.headers.lookup "Authorization" = some "tok123"
    ∧ noTokenClient.headers.lookup "Authorization" = none :=
  ⟨(c4_headers_invariant sampleClient "c" "r" "" "" "" "s" "1m" "a" 1 200 (Json.obj [])).2.1
      "tok123" rfl (by decide),
   (c4_headers_invariant noTokenClient "c" "r" "" "" "" "s" "1m" "a" 1 200 (Json.obj [])).2.2.1
      (by decide)⟩

/-- C5: login on a non-success response returns the typed HTTP error
carrying the original status code and leaves the client, hence the session
token field, exactly as it was before the call. -/
theorem c5_login_failure (c : BeszelClient) (r : Response)
    (h : isSuccess r.status = false) :
    c.login r = (c, Except.error (ClientError.httpStatus r.status r.body)) := by
  simp [BeszelClient.login, h]

/-- C5 witness: the theorem applied to the sample client at a concrete 401
response. -/
theorem c5_login_failure_witness :
    sampleClient.login ⟨401, Json.obj [("message", Json.str "Failed to authenticate.")]⟩
      = (sampleClient, Except.error (ClientError.httpStatus 401
          (Json.obj [("message", Json.str "Failed to authenticate.")]))) :=
  c5_login_failure sampleClient
    ⟨401, Json.obj [("message", Json.str "Failed to authenticate.")]⟩ (by decide)

/-- C6: get_system_stats always sends the filter built from the system id
and record type, concretely sys1 with 10m gives the exact filter shown in
the statement; get_containers and get_alerts send no filter parameter when
the system id is empty and send exactly the interpolated system filter when
it is non-empty. -/
theorem c6_domain_filters (c : BeszelClient) (system_id record_type : String) (per_page : Int) :
    (c.get_system_stats system_id record_type per_page).request.params.lookup "filter"
        = some (Json.str ("system=\"" ++ system_id ++ "\" && type=\"" ++ record_type ++ "\""))
    ∧ (c.get_system_stats "sys1" "10m" 30).request.params.lookup "filter"
        = some (Json.str "system=\"sys1\" && type=\"10m\"")
    ∧ (system_id = "" →
        (c.get_containers system_id).request.hasParam "filter" = false
        ∧ (c.get_alerts system_id).request.hasParam "filter" = false)
    ∧ (system_id ≠ "" →
        (c.get_containers system_id).request.params.lookup "filter"
            = some (Json.str ("system=\"" ++ system_id ++ "\""))
        ∧ (c.get_alerts system_id).request.params.lookup "filter"
            = some (Json.str ("system=\"" ++ system_id ++ "\""))) := by
  refine ⟨?_, rfl, ?_, ?_⟩
  · simp [BeszelClient.get_system_stats, itemsOf, BeszelClient.list_records,
          BeszelClient.httpGet, listParams, List.lookup,
          statsFilter_ne_empty system_id record_type]
  · intro h
    subst h
    exact ⟨rfl, rfl⟩
  · intro h
    constructor <;>
      simp [BeszelClient.get_containers, BeszelClient.get_alerts, itemsOf,
            BeszelClient.list_records, BeszelClient.httpGet, listParams, List.lookup, h,
            idFilter_ne_empty system_id]

/-- C6 witness: the theorem applied at an empty and at a non-empty system
id, with concrete filter strings. -/
theorem c6_domain_filters_witness :
    (sampleClient.get_containers "").request.hasParam "filter" = false
    ∧ (sampleClient.get_containers "sys1").request.params.lookup "filter"
        = some (Json.str "system=\"sys1\"")
    ∧ (sampleClient.get_system_stats "sys1" "10m" 30).request.params.lookup "filter"
        = some (Json.str "system=\"sys1\" && type=\"10m\"") := by
  refine ⟨((c6_domain_filters sampleClient "" "10m" 30).2.2.1 rfl).1, ?_,
          (c6_domain_filters sampleClient "sys1" "10m" 30).2.1⟩
  exact ((c6_domain_filters sampleClient "sys1" "10m" 30).2.2.2 (by decide)).1

/-- C7: get_current_user returns exactly the record field of a successful
refresh response object when that key is present, and the empty object when
it is absent. -/
theorem c7_get_current_user (c : BeszelClient) (status : Nat)
    (fields : List (String × Json)) (hs : isSuccess status = true) :
    (∀ v : Json, (Json.obj fields).get? "record" = some v →
        c.get_current_user.handle ⟨status, Json.obj fields⟩ = Except.ok v)
    ∧ ((Json.obj fields).get? "record" = none →
        c.get_current_user.handle ⟨status, Json.obj fields⟩ = Except.ok (Json.obj [])) := by
  constructor
  · intro v hv
    simp [BeszelClient.get_current_user, BeszelClient.auth_refresh, BeszelClient.httpPost,
          handleResponse, hs, Json.getD, Except.map, hv]
  · intro hv
    simp [BeszelClient.get_current_user, BeszelClient.auth_refresh, BeszelClient.httpPost,
          handleResponse, hs, Json.getD, Except.map, hv]

/-- C7 witness: the theorem applied at a refresh response carrying a record
and at one missing it. -/
theorem c7_get_current_user_witness :
    sampleClient.get_current_user.handle
        ⟨200, Json.obj [("token", Json.str "t2"), ("record", Json.obj [("id", Json.str "u1")])]⟩
      = Except.ok (Json.obj [("id", Json.str "u1")])
    ∧ sampleClient.get_current_user.handle ⟨200, Json.obj [("token", Json.str "t2")]⟩
      = Except.ok (Json.obj []) :=
  ⟨(c7_get_current_user sampleClient 200
      [("token", Json.str "t2"), ("record", Json.obj [("id", Json.str "u1")])] (by decide)).1
      (Json.obj [("id", Json.str "u1")]) rfl,
   (c7_get_current_user sampleClient 200 [("token", Json.str "t2")] (by decide)).2 rfl⟩

/-- C8: on a non-success response every operation returns the typed HTTP
error carrying the status code and body, propagated unchanged through every
accessor built on the transport helpers, with login additionally leaving
the client unchanged; on a success response the generic operations return
the parsed body and delete returns no value. -/
theorem c8_error_propagation (c : BeszelClient) (r : Response)
    (col rid ex sort fe sid rt aid : String) (pg pp : Int) (d : Json) :
    (isSuccess r.status = false →
      ((c.list_records col pg pp sort fe ex).handle r
          = Except.error (ClientError.httpStatus r.status r.body)
      ∧ (c.get_record col rid ex).handle r = Except.error (ClientError.httpStatus r.status r.body)
      ∧ (c.create_record col d).handle r = Except.error (ClientError.httpStatus r.status r.body)
      ∧ (c.update_record col rid d).handle r = Except.error (ClientError.httpStatus r.status r.body)
      ∧ (c.delete_record col rid).handle r = Except.error (ClientError.httpStatus r.status r.body)
      ∧ c.auth_refresh.handle r = Except.error (ClientError.httpStatus r.status r.body)
      ∧ c.get_current_user.handle r = Except.error (ClientError.httpStatus r.status r.body)
      ∧ (c.get_systems fe).handle r = Except.error (ClientError.httpStatus r.status r.body)
      ∧ (c.get_system sid).handle r = Except.error (ClientError.httpStatus r.status r.body)
      ∧ (c.update_system sid d).handle r = Except.error (ClientError.httpStatus r.status r.body)
      ∧ (c.delete_system sid).handle r = Except.error (ClientError.httpStatus r.status r.body)
      ∧ (c.get_system_stats sid rt pp).handle r
          = Except.error (ClientError.httpStatus r.status r.body)
      ∧ (c.get_container_stats sid pp).handle r
          = Except.error (ClientError.httpStatus r.status r.body)
      ∧ (c.get_alerts sid).handle r = Except.error (ClientError.httpStatus r.status r.body)
      ∧ (c.get_alert aid).handle r = Except.error (ClientError.httpStatus r.status r.body)
      ∧ (c.create_alert d).handle r = Except.error (ClientError.httpStatus r.status r.body)
      ∧ (c.update_alert aid d).handle r = Except.error (ClientError.httpStatus r.status r.body)
      ∧ (c.delete_alert aid).handle r = Except.error (ClientError.httpStatus r.status r.body)
      ∧ (c.get_alert_history pp).handle r = Except.error (ClientError.httpStatus r.status r.body)
      ∧ (c.get_containers sid).handle r = Except.error (ClientError.httpStatus r.status r.body)
      ∧ c.login r = (c, Except.error (ClientError.httpStatus r.status r.body))))
    ∧ (isSuccess r.status = true →
      ((c.list_records col pg pp sort fe ex).handle r = Except.ok r.body
      ∧ (c.get_record col rid ex).handle r = Except.ok r.body
      ∧ (c.create_record col d).handle r = Except.ok r.body
      ∧ (c.update_record col rid d).handle r = Except.ok r.body
      ∧ c.auth_refresh.handle r = Except.ok r.body
      ∧ (c.delete_record col rid).handle r = Except.ok ())) := by
  constructor
  · intro h
    simp [BeszelClient.list_records, BeszelClient.get_record, BeszelClient.create_record,
          BeszelClient.update_record, BeszelClient.delete_record, BeszelClient.auth_refresh,
          BeszelClient.get_current_user, BeszelClient.get_systems, BeszelClient.get_system,
          BeszelClient.update_system, BeszelClient.delete_system, BeszelClient.get_system_stats,
          BeszelClient.get_container_stats, BeszelClient.get_alerts, BeszelClient.get_alert,
          BeszelClient.create_alert, BeszelClient.update_alert, BeszelClient.delete_alert,
          BeszelClient.get_alert_history, BeszelClient.get_containers, BeszelClient.login,
          itemsOf, BeszelClient.httpGet, BeszelClient.httpPost, BeszelClient.httpPatch,
          BeszelClient.httpDelete, handleResponse, Except.map, h]
  · intro h
    simp [BeszelClient.list_records, BeszelClient.get_record, BeszelClient.create_record,
          BeszelClient.update_record, BeszelClient.delete_record, BeszelClient.auth_refresh,
          BeszelClient.httpGet, BeszelClient.httpPost, BeszelClient.httpPatch,
          BeszelClient.httpDelete, handleResponse, h]

/-- C8 witness: the failure clause applied at a concrete 404 response on an
items accessor, and the success clause applied at a concrete 204 delete. -/
theorem c8_error_propagation_witness :
    (sampleClient.get_systems "").handle ⟨404, Json.obj []⟩
        = Except.error (ClientError.httpStatus 404 (Json.obj []))
    ∧ (sampleClient.delete_record "systems" "s1").handle ⟨204, Json.obj []⟩ = Except.ok () := by
  have h := c8_error_propagation sampleClient ⟨404, Json.obj []⟩
    "systems" "s1" "" "" "" "s" "1m" "a" 1 200 (Json.obj [])
  have h2 := c8_error_propagation sampleClient ⟨204, Json.obj []⟩
    "systems" "s1" "" "" "" "s" "1m" "a" 1 200 (Json.obj [])
  exact ⟨(h.1 (by decide)).2.2.2.2.2.2.2.1, (h2.2 (by decide)).2.2.2.2.2⟩

/-- C9: a client whose token is the empty string builds exactly the same
header list as the same client with no token at all, in particular no
Authorization header, so every operation sends requests identical to the
unauthenticated ones. -/
theorem c9_empty_token (c : BeszelClient) (h : c.token = some "") :
    c.headers = (BeszelClient.mk c.base_url none).headers
    ∧ c.headers.lookup "Authorization" = none := by
  simp [BeszelClient.headers, h, List.lookup]

/-- C9 witness: the theorem applied to the concrete empty-token client. -/
theorem c9_empty_token_witness :
    emptyTokenClient.headers.lookup "Authorization" = none :=
  (c9_empty_token emptyTokenClient rfl).2

/-- C10: the domain filters are built by verbatim interpolation of the
caller-supplied ids with no escaping or validation: for every non-empty
system id, get_containers sends exactly the plain concatenation of the
quoted prefix, the id and a closing quote, get_system_stats the analogous
concatenation including the record type, and an id containing a double
quote is embedded unescaped, as the concrete conjunct shows. -/
theorem c10_verbatim_interpolation (c : BeszelClient) (system_id record_type : String)
    (per_page : Int) (h : system_id ≠ "") :
    (c.get_containers system_id).request.params.lookup "filter"
        = some (Json.str ("system=\"" ++ system_id ++ "\""))
    ∧ (c.get_system_stats system_id record_type per_page).request.params.lookup "filter"
        = some (Json.str ("system=\"" ++ system_id ++ "\" && type=\"" ++ record_type ++ "\""))
    ∧ (c.get_containers "a\"b").request.params.lookup "filter"
        = some (Json.str "system=\"a\"b\"") := by
  refine ⟨?_, ?_, rfl⟩
  · simp [BeszelClient.get_containers, itemsOf, BeszelClient.list_records,
          BeszelClient.httpGet, listParams, List.lookup, h, idFilter_ne_empty system_id]
  · simp [BeszelClient.get_system_stats, itemsOf, BeszelClient.list_records,
          BeszelClient.httpGet, listParams, List.lookup,
          statsFilter_ne_empty system_id record_type]

/-- C10 witness: the theorem applied at the concrete id containing a double
quote, showing the unescaped interpolation. -/
theorem c10_verbatim_interpolation_witness :
    (sampleClient.get_containers "a\"b").request.params.lookup "filter"
        = some (Json.str "system=\"a\"b\"")
    ∧ (sampleClient.get_system_stats "a\"b" "1m" 30).request.params.lookup "filter"
        = some (Json.str "system=\"a\"b\" && type=\"1m\"") := by
  have h := c10_verbatim_interpolation sampleClient "a\"b" "1m" 30 (by decide)
  exact ⟨h.1, h.2.1⟩

end BeszelCli
